import Mathlib

/-!
Verification development for the todo-phase-3 backend.

The definitions below are shallow embeddings, translated function by
function from the Python sources:

* `src/utils/recurrence_parser.py`  (natural-language recurrence parsing)
* `src/utils/recurrence_calculator.py`  (next-due-date calendar arithmetic)
* `src/service.py`  (TaskService.complete_task, TaskService.delete_task)
* `src/models.py`  (entity fields, defaults and cascade relationships)
* `src/routes/reminders.py`  (create_reminder, cancel_reminder)
* `src/routes/jobs.py`  (trigger_job)

Python runtime exceptions (UnboundLocalError, IndexError, NameError,
HTTPException) are modelled with `Except`: a function that can raise
returns `Except PyErr _` and a raised exception is an `Except.error`.
-/

namespace TodoSpec

/-- Python runtime exceptions that the embedded code can raise. -/
inductive PyErr where
  /-- a local variable is read before any assignment executed -/
  | unboundLocalError
  /-- re.Match.group(1) on a pattern that has no capture group -/
  | indexError
  /-- a global name is referenced that is not defined in the module -/
  | nameError
  /-- fastapi.HTTPException with a status code and detail message -/
  | httpException (status : Nat) (detail : String)
  deriving DecidableEq, Repr

/-- Decidable equality for Except values over decidable components,
needed to evaluate the embedded functions inside `decide` proofs. -/
instance exceptDecEq {ε α : Type} [DecidableEq ε] [DecidableEq α] :
    DecidableEq (Except ε α) := fun a b =>
  match a, b with
  | .error e, .error f =>
    if h : e = f then isTrue (by rw [h]) else isFalse (by intro hc; cases hc; exact h rfl)
  | .error _, .ok _ => isFalse (by intro h; cases h)
  | .ok _, .error _ => isFalse (by intro h; cases h)
  | .ok x, .ok y =>
    if h : x = y then isTrue (by rw [h]) else isFalse (by intro hc; cases hc; exact h rfl)

/-! ## Character classes used by the regex patterns (`re` with ASCII input).

`\s` is `[ \t\n\r\x0b\x0c]`, `\w` is `[A-Za-z0-9_]`, `\d` is `[0-9]`.

All string manipulation below is done on the character list `String.data`
with structurally recursive list functions, so that every embedded
function evaluates inside the kernel; each helper states which Python
str / re operation it models. -/

/-- Membership in the regex class backslash-s. -/
def isSpaceCh (c : Char) : Bool :=
  c = ' ' || c = '\t' || c = '\n' || c = '\r' || c = '\x0b' || c = '\x0c'

/-- Membership in the regex class backslash-w. -/
def isWordCh (c : Char) : Bool :=
  c.isAlphanum || c = '_'

/-- Membership in the regex class backslash-d. -/
def isDigitCh (c : Char) : Bool :=
  c.isDigit

/-- The character list starts with the given literal (anchored regex
literal or str.startswith). -/
def startsWithL : List Char → List Char → Bool
  | _, [] => true
  | [], _ :: _ => false
  | c :: cs, p :: ps => c = p && startsWithL cs ps

/-- ASCII str.lower on one character. -/
def lowerCh (c : Char) : Char :=
  if c.toNat ≥ 65 ∧ c.toNat ≤ 90 then Char.ofNat (c.toNat + 32) else c

/-- str.lower (ASCII model; all pattern vocabulary is ASCII). -/
def pyLower (l : List Char) : List Char :=
  l.map lowerCh

/-- str.strip: remove leading and trailing whitespace. -/
def pyStrip (l : List Char) : List Char :=
  ((l.dropWhile isSpaceCh).reverse.dropWhile isSpaceCh).reverse

/-- Decimal value of a digit run (helper for int()). -/
def digitsToNat (l : List Char) : Nat :=
  l.foldl (fun acc c => acc * 10 + (c.toNat - 48)) 0

/-- Python int(str): strip whitespace, optional sign, decimal digits.
Returns `Option.none` where Python raises ValueError. -/
def pyToInt (s : List Char) : Option Int :=
  let t := pyStrip s
  match t with
  | '-' :: rest =>
    if !rest.isEmpty && rest.all isDigitCh then some (-(digitsToNat rest : Int))
    else Option.none
  | '+' :: rest =>
    if !rest.isEmpty && rest.all isDigitCh then some ((digitsToNat rest : Int))
    else Option.none
  | _ =>
    if !t.isEmpty && t.all isDigitCh then some ((digitsToNat t : Int))
    else Option.none

/-! ## src/utils/recurrence_parser.py -/

/-- RecurrenceFrequency(str, Enum): daily / weekly / monthly / none. -/
inductive RecurrenceFrequency where
  | daily
  | weekly
  | monthly
  | none
  deriving DecidableEq, Repr

/-- The string value of a RecurrenceFrequency member. -/
def RecurrenceFrequency.val : RecurrenceFrequency → String
  | .daily => "daily"
  | .weekly => "weekly"
  | .monthly => "monthly"
  | .none => "none"

/-- WEEKDAY_MAP: weekday names and abbreviations to DayOfWeek (0 = Monday). -/
def WEEKDAY_MAP : List (String × Fin 7) :=
  [("monday", 0), ("mon", 0), ("tuesday", 1), ("tue", 1),
   ("wednesday", 2), ("wed", 2), ("thursday", 3), ("thu", 3),
   ("friday", 4), ("fri", 4), ("saturday", 5), ("sat", 5),
   ("sunday", 6), ("sun", 6)]

/-- The day_names list used by to_pattern_string, indexed by DayOfWeek value. -/
def dayName : Fin 7 → String
  | 0 => "monday"
  | 1 => "tuesday"
  | 2 => "wednesday"
  | 3 => "thursday"
  | 4 => "friday"
  | 5 => "saturday"
  | 6 => "sunday"

/-- Result of parsing a recurrence pattern (class RecurrenceParseResult). -/
structure RecurrenceParseResult where
  frequency : RecurrenceFrequency
  valid : Bool := true
  error_message : Option String := Option.none
  day_of_week : Option (Fin 7) := Option.none
  day_of_month : Option Int := Option.none
  interval : Nat := 1
  deriving DecidableEq, Repr

/-- Matches the anchored pattern pre ++ backslash-s* ++ suf (for example
every-space-day).  The gap chars are exactly the run removed by dropWhile,
because suf starts with a non-space character in every pattern used. -/
def gapMatch (s pre suf : List Char) : Bool :=
  startsWithL s pre && ((s.drop pre.length).dropWhile isSpaceCh) == suf

/-- DAILY_PATTERNS: daily, every-day, each-day, everyday (anchored). -/
def matchDaily (s : List Char) : Bool :=
  s == "daily".data || gapMatch s "every".data "day".data ||
    gapMatch s "each".data "day".data || s == "everyday".data

/-- A regex match outcome: `Option.none` when the pattern does not match,
`some Option.none` on a match without a capture group (lastindex is None),
`some (some g)` on a match whose group 1 captured `g`. -/
abbrev MatchOutcome := Option (Option String)

/-- Anchored every backslash-s* capture-word: the capture is the remainder
after the space run, which must be a non-empty word. -/
def matchEveryWord (s : List Char) : MatchOutcome :=
  if startsWithL s "every".data then
    let r := (s.drop 5).dropWhile isSpaceCh
    if !r.isEmpty && r.all isWordCh then some (some (String.mk r)) else Option.none
  else Option.none

/-- Anchored on backslash-s+ capture-word (at least one space required). -/
def matchOnWord (s : List Char) : MatchOutcome :=
  if startsWithL s "on".data then
    let rest := s.drop 2
    let sp := rest.takeWhile isSpaceCh
    let r := rest.dropWhile isSpaceCh
    if !sp.isEmpty && !r.isEmpty && r.all isWordCh then some (some (String.mk r))
    else Option.none
  else Option.none

/-- Anchored capture-of-one-word: the whole input is a non-empty word. -/
def matchBareWord (s : List Char) : MatchOutcome :=
  if !s.isEmpty && s.all isWordCh then some (some (String.mk s)) else Option.none

/-- WEEKLY_PATTERNS in source order. -/
def weeklyMatchers : List (List Char → MatchOutcome) :=
  [fun s => if s == "weekly".data then some Option.none else Option.none,
   fun s => if gapMatch s "every".data "week".data then some Option.none else Option.none,
   fun s => if gapMatch s "each".data "week".data then some Option.none else Option.none,
   matchEveryWord,
   matchOnWord,
   matchBareWord]

/-- Anchored day backslash-s* capture-of-1-or-2-digits. -/
def matchDayNum (s : List Char) : MatchOutcome :=
  if startsWithL s "day".data then
    let r := (s.drop 3).dropWhile isSpaceCh
    if 1 ≤ r.length && r.length ≤ 2 && r.all isDigitCh then some (some (String.mk r))
    else Option.none
  else Option.none

/-- Anchored capture-of-1-or-2-digits followed by an optional ordinal suffix
(st, nd, rd, th); group 1 is the digit run. -/
def matchOrdinal (s : List Char) : MatchOutcome :=
  let d := s.takeWhile isDigitCh
  let rest := s.drop d.length
  if 1 ≤ d.length && d.length ≤ 2 &&
      (rest.isEmpty || rest == "st".data || rest == "nd".data ||
        rest == "rd".data || rest == "th".data) then
    some (some (String.mk d))
  else Option.none

/-- Anchored end backslash-s* of backslash-s* month. -/
def matchEndOfMonth (s : List Char) : MatchOutcome :=
  if startsWithL s "end".data then
    let r1 := (s.drop 3).dropWhile isSpaceCh
    if startsWithL r1 "of".data && ((r1.drop 2).dropWhile isSpaceCh) == "month".data then
      some Option.none
    else Option.none
  else Option.none

/-- MONTHLY_PATTERNS in source order. -/
def monthlyMatchers : List (List Char → MatchOutcome) :=
  [fun s => if s == "monthly".data then some Option.none else Option.none,
   fun s => if gapMatch s "every".data "month".data then some Option.none else Option.none,
   fun s => if gapMatch s "each".data "month".data then some Option.none else Option.none,
   matchDayNum,
   matchOrdinal,
   fun s => if gapMatch s "last".data "day".data then some Option.none else Option.none,
   matchEndOfMonth]

/-- The loop over WEEKLY_PATTERNS.  `captured` is the local variable of the
same name: it is assigned only when a matched pattern has a capture group,
and it survives across loop iterations.  When a group-less pattern matches,
the source reads `captured` in the plain-weekly check; if no assignment has
executed yet, that read raises UnboundLocalError. -/
def weeklyLoop (s : List Char) :
    List (List Char → MatchOutcome) → Option String →
    Except PyErr (Option RecurrenceParseResult)
  | [], _ => .ok Option.none
  | m :: ms, captured =>
    match m s with
    | Option.none => weeklyLoop s ms captured
    | some (some cap) =>
      match WEEKDAY_MAP.lookup cap with
      | some d =>
        .ok (some { frequency := .weekly, day_of_week := some d })
      | Option.none =>
        if cap = "weekly" || cap = "week" then
          .ok (some { frequency := .weekly })
        else
          weeklyLoop s ms (some cap)
    | some Option.none =>
      match captured with
      | Option.none => .error .unboundLocalError
      | some c =>
        if c = "weekly" || c = "week" then
          .ok (some { frequency := .weekly })
        else
          weeklyLoop s ms captured

/-- The loop over MONTHLY_PATTERNS.  After the day-number extraction, the
source evaluates `match.group(1)` unconditionally in the plain-monthly
check; on a match without a capture group that raises IndexError. -/
def monthlyLoop (s : List Char) :
    List (List Char → MatchOutcome) →
    Except PyErr (Option RecurrenceParseResult)
  | [] => .ok Option.none
  | m :: ms =>
    match m s with
    | Option.none => monthlyLoop s ms
    | some Option.none => .error .indexError
    | some (some cap) =>
      let afterTry : Except PyErr (Option RecurrenceParseResult) :=
        if cap = "last" || cap = "end" then
          .ok (some { frequency := .monthly, day_of_month := some 0 })
        else if cap = "monthly" || cap = "month" then
          .ok (some { frequency := .monthly })
        else
          monthlyLoop s ms
      match pyToInt cap.data with
      | some day =>
        if 1 ≤ day && day ≤ 31 then
          .ok (some { frequency := .monthly, day_of_month := some day })
        else afterTry
      | Option.none => afterTry

/-- parse_recurrence_pattern: parse a natural language recurrence pattern. -/
def parse_recurrence_pattern (input_text : String) : Except PyErr RecurrenceParseResult :=
  if input_text = "" then
    .ok { frequency := .none, valid := false,
          error_message := some "Empty recurrence pattern" }
  else
    let normalized := pyStrip (pyLower input_text.data)
    if matchDaily normalized then
      .ok { frequency := .daily }
    else
      match weeklyLoop normalized weeklyMatchers Option.none with
      | .error e => .error e
      | .ok (some r) => .ok r
      | .ok Option.none =>
        match monthlyLoop normalized monthlyMatchers with
        | .error e => .error e
        | .ok (some r) => .ok r
        | .ok Option.none =>
          .ok { frequency := .none, valid := false,
                error_message :=
                  some ("Could not parse recurrence pattern: " ++ input_text) }

/-- RecurrenceParseResult.to_pattern_string.  Note the day_of_month test is
Python truthiness: both None and 0 serialize as plain monthly. -/
def RecurrenceParseResult.to_pattern_string (r : RecurrenceParseResult) : String :=
  match r.frequency with
  | .daily => "daily"
  | .weekly =>
    match r.day_of_week with
    | some d => "weekly:" ++ dayName d
    | Option.none => "weekly"
  | .monthly =>
    match r.day_of_month with
    | some d => if d ≠ 0 then "monthly:" ++ toString d else "monthly"
    | Option.none => "monthly"
  | .none => "none"

/-- The part after the first colon, as in pattern.split(colon)[1]; only
called under a startsWith guard that guarantees the colon exists. -/
def afterColon (p : List Char) : List Char :=
  ((p.dropWhile (fun c => c ≠ ':')).drop 1).takeWhile (fun c => c ≠ ':')

/-- RecurrenceParseResult.from_pattern_string.  A weekly-prefixed pattern
with an unknown day name and a monthly-prefixed pattern with a non-integer
day both fall through to the unknown-pattern result, exactly as in the
source where the failed branches continue to the final return. -/
def RecurrenceParseResult.from_pattern_string (pattern : String) : RecurrenceParseResult :=
  if pattern = "none" then { frequency := .none }
  else if pattern = "daily" then { frequency := .daily }
  else if pattern = "weekly" then { frequency := .weekly }
  else
    let unknown : RecurrenceParseResult :=
      { frequency := .none, valid := false,
        error_message := some ("Unknown pattern: " ++ pattern) }
    if startsWithL pattern.data "weekly:".data then
      match WEEKDAY_MAP.lookup (String.mk (pyLower (afterColon pattern.data))) with
      | some d => { frequency := .weekly, day_of_week := some d }
      | Option.none => unknown
    else if startsWithL pattern.data "monthly:".data then
      match pyToInt (afterColon pattern.data) with
      | some day => { frequency := .monthly, day_of_month := some day }
      | Option.none => unknown
    else unknown

/-! ## src/utils/recurrence_calculator.py

Python datetimes are modelled as a proleptic-Gregorian calendar date plus
an opaque time-of-day component `tod` (hour, minute, second, microsecond,
tzinfo packed together): none of the embedded operations inspect the time
of day, they only carry it, so it is kept abstract as one value. -/

/-- A datetime value: year, month, day and an opaque time-of-day. -/
structure PyDateTime where
  year : Nat
  month : Nat
  day : Nat
  tod : Nat := 0
  deriving DecidableEq, Repr

/-- Gregorian leap-year rule (calendar.isleap / datetime internals). -/
def isLeap (y : Nat) : Bool :=
  y % 4 = 0 && (y % 100 ≠ 0 || y % 400 = 0)

/-- Number of days in a month of a given year. -/
def daysInMonth (y m : Nat) : Nat :=
  if m = 2 then (if isLeap y then 29 else 28)
  else if m = 4 ∨ m = 6 ∨ m = 9 ∨ m = 11 then 30
  else 31

/-- A structurally valid datetime (what the Python datetime constructor
enforces; month 1-12 and day within the month). -/
def isValidDate (d : PyDateTime) : Prop :=
  1 ≤ d.month ∧ d.month ≤ 12 ∧ 1 ≤ d.day ∧ d.day ≤ daysInMonth d.year d.month

instance (d : PyDateTime) : Decidable (isValidDate d) := by
  unfold isValidDate; infer_instance

/-- Year of current + relativedelta(months=1). -/
def nmYear (d : PyDateTime) : Nat :=
  if d.month = 12 then d.year + 1 else d.year

/-- Month of current + relativedelta(months=1). -/
def nmMonth (d : PyDateTime) : Nat :=
  if d.month = 12 then 1 else d.month + 1

/-- relativedelta(months=1): advance one calendar month, clamping the day
to the length of the target month (dateutil semantics). -/
def addOneMonth (d : PyDateTime) : PyDateTime :=
  { year := nmYear d, month := nmMonth d,
    day := min d.day (daysInMonth (nmYear d) (nmMonth d)), tod := d.tod }

/-- datetime.replace(day=n): raises ValueError when the day is out of
range for the datetime's month.  The day argument is a Python int. -/
def replaceDay (d : PyDateTime) (n : Int) : Except Unit PyDateTime :=
  if 1 ≤ n ∧ n ≤ (daysInMonth d.year d.month : Int) then
    .ok { d with day := n.toNat }
  else .error ()

/-- datetime.replace with new year, month and day (same validity check). -/
def replaceYMD (d : PyDateTime) (y m n : Nat) : Except Unit PyDateTime :=
  if 1 ≤ m ∧ m ≤ 12 ∧ 1 ≤ n ∧ n ≤ daysInMonth y m then
    .ok { year := y, month := m, day := n, tod := d.tod }
  else .error ()

/-- current + timedelta(days=1) on a valid date. -/
def addOneDay (d : PyDateTime) : PyDateTime :=
  if d.day < daysInMonth d.year d.month then { d with day := d.day + 1 }
  else if d.month < 12 then { d with month := d.month + 1, day := 1 }
  else { year := d.year + 1, month := 1, day := 1, tod := d.tod }

/-- current - timedelta(days=1) on a valid date. -/
def subOneDay (d : PyDateTime) : PyDateTime :=
  if 1 < d.day then { d with day := d.day - 1 }
  else if 1 < d.month then
    { d with month := d.month - 1, day := daysInMonth d.year (d.month - 1) }
  else { year := d.year - 1, month := 12, day := 31, tod := d.tod }

/-- Days in all months strictly before month m of year y. -/
def daysBeforeMonth (y m : Nat) : Nat :=
  (List.range m).foldl (fun acc k => if k = 0 then acc else acc + daysInMonth y k) 0

/-- Proleptic-Gregorian ordinal of a date (datetime.toordinal: day number
with 0001-01-01 as ordinal 1). -/
def toOrdinal (d : PyDateTime) : Nat :=
  365 * (d.year - 1) + (d.year - 1) / 4 - (d.year - 1) / 100 + (d.year - 1) / 400
    + daysBeforeMonth d.year d.month + d.day

/-- datetime.weekday(): 0 = Monday .. 6 = Sunday.  Ordinal 1 (0001-01-01)
is a Monday. -/
def pyWeekday (d : PyDateTime) : Nat :=
  (toOrdinal d + 6) % 7

/-- current + timedelta(days=n) by iterating single-day steps. -/
def addDays (d : PyDateTime) : Nat → PyDateTime
  | 0 => d
  | n + 1 => addOneDay (addDays d n)

/-- RecurrenceCalculator._get_last_day_of_month: first day of the next
month minus one day.  The replace calls are the ones in the source. -/
def getLastDayOfMonth (dt : PyDateTime) : Except Unit PyDateTime :=
  if dt.month = 12 then
    (replaceYMD dt (dt.year + 1) 1 1).map subOneDay
  else
    (replaceYMD dt dt.year (dt.month + 1) 1).map subOneDay

/-- RecurrenceCalculator._next_daily: next day at the same time. -/
def nextDaily (completed_at : PyDateTime) : PyDateTime :=
  addOneDay completed_at

/-- RecurrenceCalculator._next_weekly: next date on the target weekday,
strictly after completed_at (0 = Monday). -/
def nextWeekly (completed_at : PyDateTime) (target_day : Option Nat) : PyDateTime :=
  let target := target_day.getD (pyWeekday completed_at)
  let current := pyWeekday completed_at
  let days_ahead : Int := (target : Int) - (current : Int)
  let days_ahead := if days_ahead ≤ 0 then days_ahead + 7 else days_ahead
  addDays completed_at days_ahead.toNat

/-- The tail of _next_monthly: replace the day in the next month, catching
the ValueError of an out-of-range day and rolling back to the last day. -/
def monthlyCore (completed_at : PyDateTime) (target : Int) : Except Unit PyDateTime :=
  let next_month := addOneMonth completed_at
  match replaceDay next_month target with
  | .ok r => .ok r
  | .error _ => getLastDayOfMonth next_month

/-- RecurrenceCalculator._next_monthly: advance one month; a missing
target day reuses the current day; an explicit target day of 0 means the
last day of the next month. -/
def nextMonthly (completed_at : PyDateTime) (target_day : Option Int) :
    Except Unit PyDateTime :=
  match target_day with
  | Option.none => monthlyCore completed_at (completed_at.day : Int)
  | some t =>
    if t = 0 then getLastDayOfMonth (addOneMonth completed_at)
    else monthlyCore completed_at t

/-- RecurrenceCalculator.calculate_next_due_date.  The frequency argument
is a string because the callers pass either a plain string or a str-valued
enum member that compares equal to its value. -/
def calculate_next_due_date (current_due_date : PyDateTime) (frequency : String)
    (day_of_week : Option Nat := Option.none) (day_of_month : Option Int := Option.none) :
    Except Unit (Option PyDateTime) :=
  if frequency = "none" then .ok Option.none
  else if frequency = "daily" then .ok (some (nextDaily current_due_date))
  else if frequency = "weekly" then .ok (some (nextWeekly current_due_date day_of_week))
  else if frequency = "monthly" then
    (nextMonthly current_due_date day_of_month).map some
  else .ok Option.none

/-! ## src/enums.py and src/models.py

Entity rows.  Columns that no claim touches (updated_at, project_id,
reminder_offset, reminder_type payload, sent_at, JSON event_data, comments
and attachments, which cascade exactly like reminders) are omitted; every
field kept mirrors the column and its declared default. -/

/-- PriorityEnum(str, Enum). -/
inductive PriorityEnum where
  | low
  | medium
  | high
  deriving DecidableEq, Repr

/-- TaskStatusEnum(str, Enum). -/
inductive TaskStatusEnum where
  | pending
  | completed
  deriving DecidableEq, Repr

/-- RecurrenceEnum(str, Enum) from src/enums.py (the column type of
Task.recurrence; distinct from the parser's RecurrenceFrequency). -/
inductive RecurrenceEnum where
  | none
  | daily
  | weekly
  | monthly
  deriving DecidableEq, Repr

/-- The string value of a RecurrenceEnum member; a str-enum member
compares equal to this value, which is how calculate_next_due_date
receives its frequency argument. -/
def RecurrenceEnum.val : RecurrenceEnum → String
  | .none => "none"
  | .daily => "daily"
  | .weekly => "weekly"
  | .monthly => "monthly"

/-- ReminderStatusEnum(str, Enum). -/
inductive ReminderStatusEnum where
  | pending
  | sent
  | failed
  | cancelled
  deriving DecidableEq, Repr

/-- A row of the tasks table (class Task in src/models.py), with the
column defaults from the model.  created_at is optional here only because
its value never matters to a claim; the service sets it explicitly where
the source does. -/
structure Task where
  id : Nat
  title : String
  description : String := ""
  priority : PriorityEnum := .medium
  tags : List String := []
  due_date : Option PyDateTime := Option.none
  recurrence : RecurrenceEnum := .none
  status : TaskStatusEnum := .pending
  created_at : Option PyDateTime := Option.none
  completed_at : Option PyDateTime := Option.none
  parent_task_id : Option Nat := Option.none
  deriving DecidableEq, Repr

/-- A row of the reminders table (class Reminder in src/models.py).
Note the model has no offset_minutes or offset_string column. -/
structure Reminder where
  id : Nat
  task_id : Nat
  user_id : Nat := 1
  scheduled_at : PyDateTime
  status : ReminderStatusEnum := .pending
  retry_count : Nat := 0
  dapr_job_id : Option String := Option.none
  deriving DecidableEq, Repr

/-- A row of the audit_log_entries table; the JSON event_data payload is
not modelled (no claim inspects it). -/
structure AuditLogEntry where
  event_type : String
  task_id : Option Nat
  parent_task_id : Option Nat := Option.none
  user_id : Nat := 1
  deriving DecidableEq, Repr

/-- The persistent state the claims range over: the three tables plus the
autoincrement counters for the two primary keys. -/
structure Store where
  tasks : List Task
  reminders : List Reminder := []
  audit : List AuditLogEntry := []
  next_task_id : Nat := 1
  next_reminder_id : Nat := 1
  deriving DecidableEq, Repr

/-- db.query(Task).filter(Task.id == task_id).first(). -/
def findTask (s : Store) (task_id : Nat) : Option Task :=
  s.tasks.find? (fun t => t.id = task_id)

/-- db.query(Reminder).filter(Reminder.id == reminder_id).first(). -/
def findReminder (s : Store) (reminder_id : Nat) : Option Reminder :=
  s.reminders.find? (fun r => r.id = reminder_id)

/-- TaskService._create_audit_entry.  The insert carries a foreign key on
tasks(id); when the referenced task does not exist the insert raises and
the method's own except clause rolls it back, leaving the store unchanged. -/
def createAuditEntry (s : Store) (event_type : String) (task_id : Nat) : Store :=
  if s.tasks.any (fun t => t.id = task_id) then
    { s with audit := s.audit ++ [{ event_type := event_type, task_id := some task_id }] }
  else s

/-! ## src/service.py : TaskService.complete_task -/

/-- The result dict returned by complete_task. -/
structure CompleteResult where
  success : Bool
  error : Option String := Option.none
  task : Option Task := Option.none
  is_recurring : Option Bool := Option.none
  next_occurrence : Option Nat := Option.none
  event_published : Option Bool := Option.none
  deriving DecidableEq, Repr

/-- The in-place mutation task.status = COMPLETED; task.completed_at = now,
applied to the row with the given primary key. -/
def markCompleted (now : PyDateTime) (task_id : Nat) (t : Task) : Task :=
  if t.id = task_id then { t with status := .completed, completed_at := some now } else t

/-- The Task(...) constructor call inside complete_task: same title,
description, priority, tags and recurrence, the computed due date,
parent_task_id = the completed task's id, created_at = now; status takes
the column default pending. -/
def nextOccurrenceTask (now : PyDateTime) (nid : Nat) (t : Task)
    (next_due : Option PyDateTime) : Task :=
  { id := nid, title := t.title, description := t.description,
    priority := t.priority, due_date := next_due, tags := t.tags,
    recurrence := t.recurrence, parent_task_id := some t.id,
    created_at := some now }

/-- TaskService.complete_task.  `publishOk` stands for the outcome of the
external Kafka publish (its failure is caught and reported as
event_published = false, never raised).  An exception inside the body is
caught by the outer handler, the session is rolled back and HTTP 500 is
raised, so the error cases return the store unchanged. -/
def complete_task (now : PyDateTime) (publishOk : Bool) (s : Store)
    (task_id : Nat) (publish_event : Bool := true) :
    Except PyErr CompleteResult × Store :=
  match findTask s task_id with
  | Option.none => (.error (.httpException 404 "Task not found"), s)
  | some task =>
    if task.status = .completed then
      (.ok { success := false, error := some "Task is already completed",
             task := some task }, s)
    else
      let is_recurring := task.recurrence ≠ RecurrenceEnum.none
      let completed := { task with status := .completed, completed_at := some now }
      let event_published := publish_event && publishOk
      if is_recurring then
        match calculate_next_due_date (task.due_date.getD now) task.recurrence.val with
        | .error _ => (.error (.httpException 500 "Error completing task"), s)
        | .ok next_due =>
          let nt := nextOccurrenceTask now s.next_task_id task next_due
          let s1 := { s with
            tasks := s.tasks.map (markCompleted now task_id) ++ [nt],
            next_task_id := s.next_task_id + 1 }
          let s2 := createAuditEntry s1 "task.completed" task_id
          (.ok { success := true, task := some completed, is_recurring := some true,
                 next_occurrence := some nt.id,
                 event_published := some event_published }, s2)
      else
        let s1 := { s with tasks := s.tasks.map (markCompleted now task_id) }
        let s2 := createAuditEntry s1 "task.completed" task_id
        (.ok { success := true, task := some completed, is_recurring := some false,
               next_occurrence := Option.none,
               event_published := some event_published }, s2)

/-! ## src/service.py : TaskService.delete_task

The session delete follows the ORM cascade declarations of src/models.py:
Task.children is declared cascade all, delete-orphan, so deleting a task
also deletes every task whose parent_task_id chain reaches it, and each
deleted task cascades in turn to its own reminders and audit entries
(and comments and attachments, not modelled). -/

/-- One cascade round: add the ids of tasks whose parent is already doomed. -/
def cascadeStep (tasks : List Task) (doomed : List Nat) : List Nat :=
  doomed ++ (tasks.filter (fun t =>
    !doomed.contains t.id &&
      (match t.parent_task_id with
       | some p => doomed.contains p
       | Option.none => false))).map (fun t => t.id)

/-- Iterate the cascade round n times. -/
def cascadeIter (tasks : List Task) : Nat → List Nat → List Nat
  | 0, doomed => doomed
  | n + 1, doomed => cascadeIter tasks n (cascadeStep tasks doomed)

/-- All task ids removed by deleting the root: the root together with its
transitive children.  tasks.length rounds suffice to close the chain. -/
def cascadeIds (tasks : List Task) (root : Nat) : List Nat :=
  cascadeIter tasks tasks.length [root]

/-- Membership in the parent_task_id subtree rooted at `root`: the root id
itself, and inductively the id of every task whose parent is already in
the subtree.  This is the set of rows the ORM cascade of Task.children
deletes; the theorems prove that cascadeIds computes exactly this set. -/
inductive ReachesRoot (tasks : List Task) (root : Nat) : Nat → Prop where
  | root : ReachesRoot tasks root root
  | child (c : Task) (p : Nat) : c ∈ tasks → c.parent_task_id = some p →
      ReachesRoot tasks root p → ReachesRoot tasks root c.id

/-- TaskService.delete_task.  After the committed delete the method calls
_create_audit_entry with the deleted task's id; that insert violates the
audit foreign key (the task row is gone) and is rolled back, which
createAuditEntry models. -/
def delete_task (s : Store) (task_id : Nat) : Except PyErr Nat × Store :=
  match findTask s task_id with
  | Option.none => (.error (.httpException 404 "Task not found"), s)
  | some _ =>
    let doomed := cascadeIds s.tasks task_id
    let s1 := { s with
      tasks := s.tasks.filter (fun t => !doomed.contains t.id),
      reminders := s.reminders.filter (fun r => !doomed.contains r.task_id),
      audit := s.audit.filter (fun a =>
        match a.task_id with
        | some tid => !doomed.contains tid
        | Option.none => true) }
    let s2 := createAuditEntry s1 "task.deleted" task_id
    (.ok task_id, s2)

/-! ## src/routes/reminders.py -/

/-- Pydantic request model ReminderCreateRequest; when offset_minutes is
present, Field(ge=5, le=10080) has already been enforced at parse time. -/
structure ReminderCreateRequest where
  task_id : Nat
  offset_minutes : Option Int := Option.none
  offset_string : Option String := Option.none
  scheduled_at : Option PyDateTime := Option.none
  deriving DecidableEq, Repr

/-- Comparison a <= b on datetimes (same tzinfo), by date then time of day. -/
def pyLe (a b : PyDateTime) : Bool :=
  toOrdinal a < toOrdinal b || (toOrdinal a = toOrdinal b && a.tod ≤ b.tod)

/-- create_reminder route handler.  Two translation notes, both visible in
the source:
1. routes/reminders.py imports datetime, timezone and timedelta but never
   the name `date`; the isinstance(due_datetime, date) normalization that
   both offset branches execute therefore raises NameError.
2. the Reminder(...) constructor call passes offset_minutes and
   offset_string keywords, but models.Reminder declares no such columns,
   so the SQLAlchemy declarative constructor raises TypeError; the
   scheduled_at branch fails there, after its future check.
`parseOffsetValid` stands for the validity verdict of the reminder-offset
parser (utils/reminder_parser.py); only its verdict is consulted before
the offset_string branch aborts on note 1, so the parser body is not
embedded. -/
def create_reminder (now : PyDateTime) (parseOffsetValid : String → Bool)
    (s : Store) (req : ReminderCreateRequest) : Except PyErr Unit × Store :=
  match findTask s req.task_id with
  | Option.none => (.error (.httpException 404 "Task not found"), s)
  | some task =>
    if task.due_date = Option.none then
      (.error (.httpException 400 "Task must have a due date to set a reminder"), s)
    else if (match req.scheduled_at with | some _ => true | Option.none => false) then
      match req.scheduled_at with
      | some sa =>
        if pyLe sa now then
          (.error (.httpException 400 "Scheduled time must be in the future"), s)
        else
          (.error .nameError, s)
      | Option.none => (.error (.httpException 500 "unreachable"), s)
    else if (match req.offset_minutes with | some m => m != 0 | Option.none => false) then
      if task.due_date = Option.none then
        (.error (.httpException 400 "Task must have a due date to calculate reminder time"), s)
      else
        (.error .nameError, s)
    else if (match req.offset_string with | some os => os != "" | Option.none => false) then
      if parseOffsetValid (req.offset_string.getD "") = false then
        (.error (.httpException 400 "Invalid reminder offset"), s)
      else if task.due_date = Option.none then
        (.error (.httpException 400 "Task must have a due date to calculate reminder time"), s)
      else
        (.error .nameError, s)
    else
      (.error (.httpException 400 "Must provide either scheduled_at, offset_minutes, or offset_string"), s)

/-- Response dict of cancel_reminder. -/
structure CancelResult where
  success : Bool
  message : String
  reminder_id : Nat
  dapr_job_cancelled : Bool
  deriving DecidableEq, Repr

/-- cancel_reminder route handler.  `daprDeleteOk` stands for the outcome
of the external job-delete call (best-effort, exceptions swallowed).  The
only guard is against an already-cancelled reminder: any other status,
including sent and failed, is overwritten with cancelled. -/
def cancel_reminder (daprDeleteOk : Bool) (s : Store) (reminder_id : Nat) :
    Except PyErr CancelResult × Store :=
  match findReminder s reminder_id with
  | Option.none => (.error (.httpException 404 "Reminder not found"), s)
  | some r =>
    if r.status = .cancelled then
      (.ok { success := true, message := "Reminder was already cancelled",
             reminder_id := reminder_id, dapr_job_cancelled := false }, s)
    else
      let job_cancelled := match r.dapr_job_id with
        | some _ => daprDeleteOk
        | Option.none => false
      let s1 := { s with reminders := s.reminders.map (fun x =>
        if x.id = reminder_id then { x with status := .cancelled } else x) }
      (.ok { success := true, message := "Reminder cancelled successfully",
             reminder_id := reminder_id, dapr_job_cancelled := job_cancelled }, s1)

/-! ## src/routes/jobs.py : trigger_job -/

/-- The Dapr job callback payload fields the handler reads. -/
structure JobData where
  type : Option String := Option.none
  reminder_id : Option Nat := Option.none
  task_id : Option Nat := Option.none
  deriving DecidableEq, Repr

/-- Response of the trigger endpoint. -/
inductive TriggerResponse where
  | ignored (reason : String)
  | errorResp (reason : String)
  | processed (reminder_id task_id : Nat) (event_published : Bool)
  deriving DecidableEq, Repr

/-- trigger_job route handler.  The third component lists the domain
events actually delivered to the bus during the call.  In the processed
branch the source invokes the async publish_reminder_triggered without
await: no event reaches the bus, while the returned coroutine object is
truthy, so the handler still reports event_published = true. -/
def trigger_job (s : Store) (jd : JobData) :
    TriggerResponse × Store × List String :=
  if jd.type ≠ some "reminder" then
    (.ignored "unknown_job_type", s, [])
  else
    let ridTruthy := match jd.reminder_id with | some n => n ≠ 0 | Option.none => false
    let tidTruthy := match jd.task_id with | some n => n ≠ 0 | Option.none => false
    if !ridTruthy || !tidTruthy then
      (.errorResp "missing_required_fields", s, [])
    else
      let rid := jd.reminder_id.getD 0
      match findReminder s rid with
      | Option.none => (.ignored "reminder_not_found", s, [])
      | some r =>
        if r.status = .sent ∨ r.status = .cancelled ∨ r.status = .failed then
          (.ignored "already_processed", s, [])
        else
          let s1 := { s with reminders := s.reminders.map (fun x =>
            if x.id = rid then { x with status := .pending } else x) }
          (.processed rid (jd.task_id.getD 0) true, s1, [])

/-! ## Concrete fixtures used by the witness theorems -/

/-- The one-task store used by the C2 witness: its task. -/
def c2WitnessTask : Task :=
  { id := 1, title := "Water plants",
    due_date := some ⟨2025, 3, 10, 8⟩, recurrence := .daily }

/-- The C2 witness store. -/
def c2WitnessStore : Store :=
  { tasks := [c2WitnessTask], next_task_id := 2 }

/-- The sent reminder used by the C8 witness. -/
def c8WitnessReminder : Reminder :=
  { id := 7, task_id := 3, scheduled_at := ⟨2025, 5, 1, 0⟩, status := .sent }

/-- The C8 witness store. -/
def c8WitnessStore : Store :=
  { tasks := [], reminders := [c8WitnessReminder] }

/-- The sent reminder used by the C9 witness. -/
def c9WitnessReminder : Reminder :=
  { id := 1, task_id := 1, scheduled_at := ⟨2025, 1, 1, 0⟩, status := .sent }

/-- The C9 witness store. -/
def c9WitnessStore : Store :=
  { tasks := [], reminders := [c9WitnessReminder] }

/-- The C10 witness store: a task, its child, a grandchild of depth two,
an unrelated task, reminders on the root, the grandchild and the
unrelated task, and audit rows on the root and the child. -/
def c10WitnessStore : Store :=
  { tasks := [{ id := 1, title := "root" },
              { id := 2, title := "child", parent_task_id := some 1 },
              { id := 4, title := "grandchild", parent_task_id := some 2 },
              { id := 3, title := "other" }],
    reminders := [{ id := 1, task_id := 1, scheduled_at := ⟨2025, 1, 1, 0⟩ },
                  { id := 2, task_id := 3, scheduled_at := ⟨2025, 1, 1, 0⟩ },
                  { id := 3, task_id := 4, scheduled_at := ⟨2025, 1, 1, 0⟩ }],
    audit := [{ event_type := "task.created", task_id := some 1 },
              { event_type := "task.created", task_id := some 2 }] }

/-! ## Helper lemmas about the calendar arithmetic -/

theorem daysInMonth_pos (y m : Nat) : 1 ≤ daysInMonth y m := by
  unfold daysInMonth
  split
  · split <;> omega
  · split <;> omega

theorem nmMonth_ge (d : PyDateTime) : 1 ≤ nmMonth d := by
  unfold nmMonth; split <;> omega

theorem nmMonth_le (d : PyDateTime) (h2 : d.month ≤ 12) : nmMonth d ≤ 12 := by
  unfold nmMonth; split <;> omega

theorem daysInMonth_one (y : Nat) : daysInMonth y 1 = 31 := by
  simp [daysInMonth]

theorem daysInMonth_twelve (y : Nat) : daysInMonth y 12 = 31 := by
  simp [daysInMonth]

theorem subOneDay_first_of_month (y m tod : Nat) (hm : 1 < m) :
    subOneDay ⟨y, m, 1, tod⟩ = ⟨y, m - 1, daysInMonth y (m - 1), tod⟩ := by
  rw [subOneDay]
  simp only [show ¬(1 < 1) by omega, if_false]
  simp [hm]

theorem subOneDay_jan_first (y tod : Nat) :
    subOneDay ⟨y + 1, 1, 1, tod⟩ = ⟨y, 12, 31, tod⟩ := by
  rw [subOneDay]
  simp

theorem getLastDayOfMonth_eq (dt : PyDateTime) (h1 : 1 ≤ dt.month) (h2 : dt.month ≤ 12) :
    getLastDayOfMonth dt =
      .ok ⟨dt.year, dt.month, daysInMonth dt.year dt.month, dt.tod⟩ := by
  by_cases h : dt.month = 12
  · rw [getLastDayOfMonth, if_pos h, replaceYMD,
      if_pos ⟨le_refl 1, by omega, le_refl 1, by rw [daysInMonth_one]; omega⟩]
    simp only [Except.map, subOneDay_jan_first]
    rw [h, daysInMonth_twelve]
  · rw [getLastDayOfMonth, if_neg h, replaceYMD,
      if_pos ⟨by omega, by omega, le_refl 1,
        by have := daysInMonth_pos dt.year (dt.month + 1); omega⟩]
    simp only [Except.map, subOneDay_first_of_month dt.year (dt.month + 1) dt.tod (by omega)]
    simp

theorem monthlyCore_eq (d : PyDateTime) (t : Nat) (hd : isValidDate d) (h1 : 1 ≤ t) :
    monthlyCore d (t : Int) =
      .ok ⟨nmYear d, nmMonth d,
           min t (daysInMonth (nmYear d) (nmMonth d)), d.tod⟩ := by
  obtain ⟨hm1, hm2, hd1, hd2⟩ := hd
  have haom : addOneMonth d =
      ⟨nmYear d, nmMonth d, min d.day (daysInMonth (nmYear d) (nmMonth d)), d.tod⟩ := rfl
  by_cases hle : t ≤ daysInMonth (nmYear d) (nmMonth d)
  · rw [monthlyCore, haom, replaceDay,
      if_pos ⟨by exact_mod_cast h1, by exact_mod_cast hle⟩]
    simp only [Int.toNat_ofNat]
    simp [Nat.min_eq_left hle]
  · rw [monthlyCore, haom, replaceDay, if_neg (by push_cast; omega)]
    rw [getLastDayOfMonth_eq _ (nmMonth_ge d) (nmMonth_le d hm2)]
    simp [Nat.min_eq_right (by omega : daysInMonth (nmYear d) (nmMonth d) ≤ t)]

theorem calculate_monthly_unfold (d : PyDateTime) (dow : Option Nat) (dom : Option Int) :
    calculate_next_due_date d "monthly" dow dom = (nextMonthly d dom).map some := by
  rw [calculate_next_due_date, if_neg (by decide), if_neg (by decide),
    if_neg (by decide), if_pos rfl]

/-- For every RecurrenceEnum value the calculator call made by
complete_task (frequency string only, no day selectors) returns without
raising, provided the base date is a real datetime. -/
theorem calculate_ok (d : PyDateTime) (r : RecurrenceEnum) (hd : isValidDate d) :
    ∃ o, calculate_next_due_date d r.val Option.none Option.none = .ok o := by
  cases r
  case none => exact ⟨Option.none, by rw [RecurrenceEnum.val, calculate_next_due_date, if_pos rfl]⟩
  case daily =>
    refine ⟨some (nextDaily d), ?_⟩
    rw [RecurrenceEnum.val, calculate_next_due_date, if_neg (by decide), if_pos rfl]
  case weekly =>
    refine ⟨some (nextWeekly d Option.none), ?_⟩
    rw [RecurrenceEnum.val, calculate_next_due_date, if_neg (by decide),
      if_neg (by decide), if_pos rfl]
  case monthly =>
    obtain ⟨hm1, hm2, hd1, hd2⟩ := hd
    refine ⟨some ⟨nmYear d, nmMonth d,
      min d.day (daysInMonth (nmYear d) (nmMonth d)), d.tod⟩, ?_⟩
    rw [RecurrenceEnum.val, calculate_monthly_unfold, nextMonthly,
      monthlyCore_eq d d.day ⟨hm1, hm2, hd1, hd2⟩ hd1]
    rfl

/-! ## Claim theorems -/

/-- C1: the claim says every successfully parsed result round-trips through
to_pattern_string and from_pattern_string, and that "last day" and "end of
month" parse to day_of_month = 0.  In the code they do not parse at all:
the matching MONTHLY_PATTERNS entries have no capture group, so the
plain-monthly check raises IndexError; moreover a monthly result carrying
day_of_month = 0 would serialize to "monthly" (0 is falsy), a string
from_pattern_string rejects as an unknown pattern, so the round trip the
claim describes fails as well. -/
theorem c1_last_day_raises_index_error :
    parse_recurrence_pattern "last day" = .error .indexError ∧
    parse_recurrence_pattern "end of month" = .error .indexError ∧
    RecurrenceParseResult.from_pattern_string
        (RecurrenceParseResult.to_pattern_string
          { frequency := .monthly, day_of_month := some 0 }) ≠
      { frequency := .monthly, day_of_month := some 0 } := by
  refine ⟨by decide, by decide, by decide⟩

/-- C6: the claim says parse_recurrence_pattern never raises, in
particular on "weekly" and "every week".  Those inputs match the
group-less weekly patterns, the local `captured` is never assigned, and
the plain-weekly membership test raises UnboundLocalError. -/
theorem c6_weekly_raises_unbound_local :
    parse_recurrence_pattern "weekly" = .error .unboundLocalError ∧
    parse_recurrence_pattern "every week" = .error .unboundLocalError ∧
    parse_recurrence_pattern "each week" = .error .unboundLocalError := by
  refine ⟨by decide, by decide, by decide⟩

/-- C5: completing an already-completed task returns a non-fatal failure
dict (success false, with the task) without raising, leaves the store -
rows, statuses, completed_at and the audit log - exactly unchanged, and
creates no new task. -/
theorem c5_already_completed_noop (now : PyDateTime) (publishOk : Bool) (s : Store)
    (task_id : Nat) (pe : Bool) (t : Task)
    (hfind : findTask s task_id = some t) (hst : t.status = .completed) :
    complete_task now publishOk s task_id pe =
      (.ok { success := false, error := some "Task is already completed",
             task := some t }, s) := by
  simp only [complete_task, hfind]
  simp [hst]

/-- Witness for C5 at a concrete one-task store. -/
theorem c5_already_completed_noop_witness :
    complete_task ⟨2025, 1, 2, 0⟩ true
        { tasks := [{ id := 1, title := "done", status := .completed }] } 1 true =
      (.ok { success := false, error := some "Task is already completed",
             task := some { id := 1, title := "done", status := .completed } },
       { tasks := [{ id := 1, title := "done", status := .completed }] }) :=
  c5_already_completed_noop ⟨2025, 1, 2, 0⟩ true
    { tasks := [{ id := 1, title := "done", status := .completed }] } 1 true
    { id := 1, title := "done", status := .completed } (by decide) rfl

/-- C4 counterexample: a pending task due 2025-01-01 with monthly
recurrence (the claim's "monthly:31" scenario; the Task row can only
store the frequency enum) is completed; the created next occurrence is
due 2025-02-01, not the 2025-02-28 the claim requires. -/
theorem c4_counterexample_due_feb_first :
    ((complete_task ⟨2025, 1, 1, 0⟩ true
        { tasks := [{ id := 1, title := "Pay rent",
                      due_date := some ⟨2025, 1, 1, 0⟩,
                      recurrence := .monthly }], next_task_id := 2 } 1
        true).2.tasks.map Task.due_date) =
      [some ⟨2025, 1, 1, 0⟩, some ⟨2025, 2, 1, 0⟩] ∧
    (some (⟨2025, 2, 1, 0⟩ : PyDateTime) ≠ some (⟨2025, 2, 28, 0⟩ : PyDateTime)) := by
  refine ⟨by decide, by decide⟩

/-- C4 amended: completing the pending monthly task due 2025-01-01 marks
it completed and creates exactly one next occurrence with the same title
and recurrence, parent_task_id 1, and due date 2025-02-01: complete_task
passes only the frequency enum to the calculator, so the day-of-month
selector of the textual pattern is never applied. -/
theorem c4_amended_next_due_month_day_one :
    (complete_task ⟨2025, 1, 1, 0⟩ true
        { tasks := [{ id := 1, title := "Pay rent",
                      due_date := some ⟨2025, 1, 1, 0⟩,
                      recurrence := .monthly }], next_task_id := 2 } 1 true).2.tasks =
      [{ id := 1, title := "Pay rent", due_date := some ⟨2025, 1, 1, 0⟩,
         recurrence := .monthly, status := .completed,
         completed_at := some ⟨2025, 1, 1, 0⟩ },
       { id := 2, title := "Pay rent", due_date := some ⟨2025, 2, 1, 0⟩,
         recurrence := .monthly, created_at := some ⟨2025, 1, 1, 0⟩,
         parent_task_id := some 1 }] := by
  decide

/-- C7: the claim says each of the three scheduling inputs is validated to
be strictly in the future, failing otherwise with the invalid-schedule-time
error and persisting nothing.  In the code the offset_minutes and
offset_string branches never reach any validation or insert: both evaluate
isinstance(due_datetime, date) and the name `date` is not imported in
routes/reminders.py, so they raise NameError (HTTP 500) even for a
perfectly valid future offset; only the scheduled_at branch performs the
future check. -/
theorem c7_offset_branch_raises_name_error :
    (create_reminder ⟨2025, 6, 1, 9⟩ (fun _ => true)
        { tasks := [{ id := 1, title := "Report",
                      due_date := some ⟨2025, 6, 10, 9⟩ }] }
        { task_id := 1, offset_minutes := some 60 }) =
      (.error .nameError,
       { tasks := [{ id := 1, title := "Report",
                     due_date := some ⟨2025, 6, 10, 9⟩ }] }) ∧
    (create_reminder ⟨2025, 6, 1, 9⟩ (fun _ => true)
        { tasks := [{ id := 1, title := "Report",
                      due_date := some ⟨2025, 6, 10, 9⟩ }] }
        { task_id := 1, offset_string := some "1 day" }) =
      (.error .nameError,
       { tasks := [{ id := 1, title := "Report",
                     due_date := some ⟨2025, 6, 10, 9⟩ }] }) := by
  refine ⟨by decide, by decide⟩

/-- C9 counterexample: cancel_reminder on a reminder whose status is sent
rewrites the status to cancelled, so a terminal sent status is not
preserved, contrary to the claim. -/
theorem c9_counterexample_cancel_rewrites_sent :
    ((cancel_reminder true
        { tasks := [],
          reminders := [{ id := 1, task_id := 1,
                          scheduled_at := ⟨2025, 1, 1, 0⟩,
                          status := .sent }] } 1).2.reminders.map Reminder.status) =
      [.cancelled] ∧
    ReminderStatusEnum.sent ≠ ReminderStatusEnum.cancelled := by
  refine ⟨by decide, by decide⟩

theorem createAuditEntry_tasks (s : Store) (e : String) (i : Nat) :
    (createAuditEntry s e i).tasks = s.tasks := by
  rw [createAuditEntry]; split <;> rfl

theorem createAuditEntry_reminders (s : Store) (e : String) (i : Nat) :
    (createAuditEntry s e i).reminders = s.reminders := by
  rw [createAuditEntry]; split <;> rfl

/-- C3: for any real datetime and any day-of-month selector 1..31, the
monthly calculation lands in the month after `current` with the day
clamped to that month's length; selector 0 gives that month's last day;
and both results are themselves valid dates, so no date-construction
error escapes (the one possible ValueError is caught and clamped). -/
theorem c3_monthly_next_month_clamped (d : PyDateTime) (dom : Nat)
    (hd : isValidDate d) (hlo : 1 ≤ dom) (_hhi : dom ≤ 31) :
    calculate_next_due_date d "monthly" Option.none (some (dom : Int)) =
      .ok (some ⟨nmYear d, nmMonth d,
        min dom (daysInMonth (nmYear d) (nmMonth d)), d.tod⟩) ∧
    calculate_next_due_date d "monthly" Option.none (some 0) =
      .ok (some ⟨nmYear d, nmMonth d, daysInMonth (nmYear d) (nmMonth d), d.tod⟩) ∧
    isValidDate ⟨nmYear d, nmMonth d,
      min dom (daysInMonth (nmYear d) (nmMonth d)), d.tod⟩ := by
  obtain ⟨hm1, hm2, hd1, hd2⟩ := hd
  have hpos := daysInMonth_pos (nmYear d) (nmMonth d)
  refine ⟨?_, ?_, ?_⟩
  · rw [calculate_monthly_unfold]
    simp only [nextMonthly]
    rw [if_neg (by exact_mod_cast (by omega : dom ≠ 0)),
      monthlyCore_eq d dom ⟨hm1, hm2, hd1, hd2⟩ hlo]
    rfl
  · rw [calculate_monthly_unfold]
    simp only [nextMonthly]
    rw [if_pos trivial,
      getLastDayOfMonth_eq (addOneMonth d) (nmMonth_ge d) (nmMonth_le d hm2)]
    rfl
  · refine ⟨nmMonth_ge d, nmMonth_le d hm2, ?_, ?_⟩
    · show 1 ≤ min dom (daysInMonth (nmYear d) (nmMonth d))
      omega
    · show min dom (daysInMonth (nmYear d) (nmMonth d)) ≤
        daysInMonth (nmYear d) (nmMonth d)
      omega

/-- Witness for C3: January 31, 2025 with selector 31 clamps to
2025-02-28 (non-leap February), and selector 0 gives the same last day. -/
theorem c3_monthly_next_month_clamped_witness :
    calculate_next_due_date ⟨2025, 1, 31, 0⟩ "monthly" Option.none (some 31) =
      .ok (some ⟨2025, 2, 28, 0⟩) ∧
    calculate_next_due_date ⟨2025, 1, 31, 0⟩ "monthly" Option.none (some 0) =
      .ok (some ⟨2025, 2, 28, 0⟩) ∧
    isValidDate ⟨2025, 2, 28, 0⟩ :=
  c3_monthly_next_month_clamped ⟨2025, 1, 31, 0⟩ 31 (by decide) (by decide) (by decide)

/-- C2: completing a pending task with non-none recurrence appends exactly
one new row carrying the same title, description, priority, tags and
recurrence, parent_task_id = completed id and default status pending,
while the existing rows only receive the completion update; with
recurrence none the task list is only updated, no row is added. -/
theorem c2_complete_task_rows (now : PyDateTime) (publishOk pe : Bool)
    (s : Store) (task_id : Nat) (t : Task)
    (hfind : findTask s task_id = some t)
    (hpend : t.status = .pending)
    (hvd : isValidDate (t.due_date.getD now)) :
    (t.recurrence ≠ RecurrenceEnum.none →
      ∃ nt, (complete_task now publishOk s task_id pe).2.tasks =
          s.tasks.map (markCompleted now task_id) ++ [nt] ∧
        nt.title = t.title ∧ nt.description = t.description ∧
        nt.priority = t.priority ∧ nt.tags = t.tags ∧
        nt.recurrence = t.recurrence ∧ nt.parent_task_id = some t.id ∧
        nt.status = TaskStatusEnum.pending) ∧
    (t.recurrence = RecurrenceEnum.none →
      (complete_task now publishOk s task_id pe).2.tasks =
        s.tasks.map (markCompleted now task_id)) := by
  have hne : ¬(t.status = TaskStatusEnum.completed) := by
    rw [hpend]; intro hc; cases hc
  obtain ⟨o, ho⟩ := calculate_ok (t.due_date.getD now) t.recurrence hvd
  constructor
  · intro hrec
    refine ⟨nextOccurrenceTask now s.next_task_id t o, ?_, rfl, rfl, rfl, rfl, rfl, rfl, rfl⟩
    simp only [complete_task, hfind]
    rw [if_neg hne, if_pos hrec, ho]
    simp [createAuditEntry_tasks]
  · intro hrec
    simp only [complete_task, hfind]
    rw [if_neg hne, if_neg (fun hc => hc hrec)]
    simp [createAuditEntry_tasks]


/-- Witness for C2 on a one-task store with daily recurrence. -/
theorem c2_complete_task_rows_witness :
    (RecurrenceEnum.daily ≠ RecurrenceEnum.none →
      ∃ nt, (complete_task ⟨2025, 3, 10, 9⟩ true c2WitnessStore 1 true).2.tasks =
          c2WitnessStore.tasks.map (markCompleted ⟨2025, 3, 10, 9⟩ 1) ++ [nt] ∧
        nt.title = "Water plants" ∧ nt.description = "" ∧
        nt.priority = PriorityEnum.medium ∧ nt.tags = ([] : List String) ∧
        nt.recurrence = RecurrenceEnum.daily ∧ nt.parent_task_id = some 1 ∧
        nt.status = TaskStatusEnum.pending) ∧
    (RecurrenceEnum.daily = RecurrenceEnum.none →
      (complete_task ⟨2025, 3, 10, 9⟩ true c2WitnessStore 1 true).2.tasks =
        c2WitnessStore.tasks.map (markCompleted ⟨2025, 3, 10, 9⟩ 1)) :=
  c2_complete_task_rows ⟨2025, 3, 10, 9⟩ true true c2WitnessStore 1 c2WitnessTask
    (by decide) rfl (by decide)

/-- C8: a well-formed reminder callback naming a reminder whose status is
already sent, cancelled or failed is answered with the already-processed
ignore response; the store (in particular that reminder's status) is
untouched and no event is published. -/
theorem c8_trigger_terminal_ignored (s : Store) (jd : JobData) (rid tid : Nat)
    (r : Reminder)
    (htype : jd.type = some "reminder")
    (hrid : jd.reminder_id = some rid) (hrz : rid ≠ 0)
    (htid : jd.task_id = some tid) (htz : tid ≠ 0)
    (hfind : findReminder s rid = some r)
    (hterm : r.status = .sent ∨ r.status = .cancelled ∨ r.status = .failed) :
    trigger_job s jd = (.ignored "already_processed", s, []) := by
  rcases hterm with h | h | h <;>
    simp [trigger_job, htype, hrid, htid, hrz, htz, hfind, h]

/-- Witness for C8 with a concrete sent reminder and a concrete callback. -/
theorem c8_trigger_terminal_ignored_witness :
    trigger_job c8WitnessStore
        { type := some "reminder", reminder_id := some 7, task_id := some 3 } =
      (.ignored "already_processed", c8WitnessStore, []) :=
  c8_trigger_terminal_ignored c8WitnessStore
    { type := some "reminder", reminder_id := some 7, task_id := some 3 }
    7 3 c8WitnessReminder
    rfl rfl (by decide) rfl (by decide) (by decide) (Or.inl rfl)

/-- C9 amended: under create_reminder, trigger_job and cancel_reminder a
cancelled reminder is never changed and cancel_reminder on an
already-cancelled reminder is a no-op, but sent and failed are not
preserved by cancel_reminder: any reminder not already cancelled -
including one in status sent or failed - is rewritten to cancelled, while
all other reminders are left as they were. -/
theorem c9_amended_cancel_characterization (ok : Bool) (s : Store) (rid : Nat)
    (r : Reminder) (hfind : findReminder s rid = some r) :
    (r.status = .cancelled → cancel_reminder ok s rid =
      (.ok { success := true, message := "Reminder was already cancelled",
             reminder_id := rid, dapr_job_cancelled := false }, s)) ∧
    (r.status ≠ .cancelled →
      (∀ x ∈ (cancel_reminder ok s rid).2.reminders, x.id = rid →
        x.status = .cancelled) ∧
      (∀ x ∈ (cancel_reminder ok s rid).2.reminders, x.id ≠ rid →
        x ∈ s.reminders)) := by
  constructor
  · intro h
    simp only [cancel_reminder, hfind]
    rw [if_pos h]
  · intro h
    have hred : (cancel_reminder ok s rid).2.reminders =
        s.reminders.map (fun x => if x.id = rid then
          { x with status := ReminderStatusEnum.cancelled } else x) := by
      simp only [cancel_reminder, hfind]
      rw [if_neg h]
    constructor
    · intro x hx hxid
      rw [hred] at hx
      obtain ⟨y, hy, rfl⟩ := List.mem_map.mp hx
      by_cases hyid : y.id = rid
      · simp [hyid]
      · rw [if_neg hyid] at hxid
        exact absurd hxid hyid
    · intro x hx hxid
      rw [hred] at hx
      obtain ⟨y, hy, rfl⟩ := List.mem_map.mp hx
      by_cases hyid : y.id = rid
      · exact absurd (by simp [hyid]) hxid
      · rw [if_neg hyid]
        exact hy

/-- Witness for C9 amended at a concrete sent reminder. -/
theorem c9_amended_cancel_characterization_witness :
    (ReminderStatusEnum.sent = .cancelled →
      cancel_reminder true c9WitnessStore 1 =
        (.ok { success := true, message := "Reminder was already cancelled",
               reminder_id := 1, dapr_job_cancelled := false }, c9WitnessStore)) ∧
    (ReminderStatusEnum.sent ≠ .cancelled →
      (∀ x ∈ (cancel_reminder true c9WitnessStore 1).2.reminders,
        x.id = 1 → x.status = .cancelled) ∧
      (∀ x ∈ (cancel_reminder true c9WitnessStore 1).2.reminders,
        x.id ≠ 1 → x ∈ c9WitnessStore.reminders)) :=
  c9_amended_cancel_characterization true c9WitnessStore 1 c9WitnessReminder
    (by decide)

/-! ## Reachability lemmas for the delete cascade -/

theorem cascadeStep_subset (tasks : List Task) (s : List Nat) :
    s ⊆ cascadeStep tasks s :=
  fun _ hx => List.mem_append_left _ hx

theorem cascadeIter_subset (tasks : List Task) :
    ∀ (n : Nat) (s : List Nat), s ⊆ cascadeIter tasks n s := by
  intro n
  induction n with
  | zero => intro s x hx; exact hx
  | succ n ih =>
    intro s x hx
    exact ih (cascadeStep tasks s) (cascadeStep_subset tasks s hx)

theorem root_mem_cascadeIds (tasks : List Task) (root : Nat) :
    root ∈ cascadeIds tasks root :=
  cascadeIter_subset tasks tasks.length [root] (List.mem_singleton.mpr rfl)

theorem cascadeIter_succ_eq (T : List Task) :
    ∀ (n : Nat) (s : List Nat),
      cascadeIter T (n + 1) s = cascadeStep T (cascadeIter T n s) := by
  intro n
  induction n with
  | zero => intro s; rfl
  | succ n ih =>
    intro s
    show cascadeIter T (n + 1) (cascadeStep T s) =
      cascadeStep T (cascadeIter T (n + 1) s)
    rw [ih (cascadeStep T s)]
    rfl

theorem cascadeIter_add (T : List Task) (m : Nat) :
    ∀ (k : Nat) (s : List Nat),
      cascadeIter T (m + k) s = cascadeIter T m (cascadeIter T k s) := by
  intro k
  induction k with
  | zero => intro s; rfl
  | succ k ih => intro s; exact ih (cascadeStep T s)

theorem cascadeIter_of_fix (T : List Task) (s : List Nat)
    (h : cascadeStep T s = s) : ∀ n, cascadeIter T n s = s := by
  intro n
  induction n with
  | zero => rfl
  | succ n ih =>
    show cascadeIter T n (cascadeStep T s) = s
    rw [h]
    exact ih

theorem append_ne_length {α : Type} (s l : List α) (h : s ++ l ≠ s) :
    s.length + 1 ≤ (s ++ l).length := by
  rcases l with _ | ⟨a, l⟩
  · simp at h
  · simp

theorem cascadeStep_length (T : List Task) (s : List Nat)
    (h : cascadeStep T s ≠ s) : s.length + 1 ≤ (cascadeStep T s).length :=
  append_ne_length _ _ h

theorem cascadeStep_nodup (T : List Task) (s : List Nat)
    (hs : s.Nodup) (hT : (T.map Task.id).Nodup) : (cascadeStep T s).Nodup := by
  refine List.Nodup.append hs ?_ ?_
  · exact List.Nodup.sublist (List.Sublist.map _ (List.filter_sublist T)) hT
  · intro a ha ha2
    obtain ⟨u, hu, rfl⟩ := List.mem_map.mp ha2
    have hpred := (List.mem_filter.mp hu).2
    simp only [Bool.and_eq_true, Bool.not_eq_true'] at hpred
    have : u.id ∉ s := by simpa using hpred.1
    exact this ha

theorem cascadeIter_nodup (T : List Task) (hT : (T.map Task.id).Nodup) :
    ∀ (n : Nat) (s : List Nat), s.Nodup → (cascadeIter T n s).Nodup := by
  intro n
  induction n with
  | zero => intro s hs; exact hs
  | succ n ih => intro s hs; exact ih (cascadeStep T s) (cascadeStep_nodup T s hs hT)

theorem cascadeIter_mem_ids (T : List Task) :
    ∀ (n : Nat) (s : List Nat), (∀ x ∈ s, x ∈ T.map Task.id) →
      ∀ x ∈ cascadeIter T n s, x ∈ T.map Task.id := by
  intro n
  induction n with
  | zero => intro s hs; exact hs
  | succ n ih =>
    intro s hs
    apply ih
    intro x hx
    rcases List.mem_append.mp hx with h | h
    · exact hs x h
    · obtain ⟨u, hu, rfl⟩ := List.mem_map.mp h
      exact List.mem_map.mpr ⟨u, (List.mem_filter.mp hu).1, rfl⟩

theorem cascadeIter_fix_or_length (T : List Task) (root : Nat) :
    ∀ k : Nat,
      (∃ j, j ≤ k ∧
        cascadeStep T (cascadeIter T j [root]) = cascadeIter T j [root]) ∨
      k + 1 ≤ (cascadeIter T k [root]).length := by
  intro k
  induction k with
  | zero => right; exact le_refl 1
  | succ k ih =>
    rcases ih with ⟨j, hj, hfix⟩ | hlen
    · exact Or.inl ⟨j, by omega, hfix⟩
    · by_cases hfx : cascadeStep T (cascadeIter T k [root]) = cascadeIter T k [root]
      · exact Or.inl ⟨k, by omega, hfx⟩
      · right
        rw [cascadeIter_succ_eq]
        have := cascadeStep_length T (cascadeIter T k [root]) hfx
        omega

/-- With unique primary keys and the root a real task id, tasks.length
cascade rounds saturate: one more round adds nothing. -/
theorem cascadeIds_fix (T : List Task) (root : Nat)
    (hrootid : root ∈ T.map Task.id) (hT : (T.map Task.id).Nodup) :
    cascadeStep T (cascadeIds T root) = cascadeIds T root := by
  rcases cascadeIter_fix_or_length T root T.length with ⟨j, hj, hfix⟩ | hlen
  · have hsplit : cascadeIds T root = cascadeIter T j [root] := by
      unfold cascadeIds
      rw [show T.length = (T.length - j) + j by omega, cascadeIter_add]
      exact cascadeIter_of_fix T _ hfix _
    rw [hsplit]
    exact hfix
  · exfalso
    have hnd : (cascadeIter T T.length [root]).Nodup :=
      cascadeIter_nodup T hT T.length [root] (List.nodup_singleton root)
    have hsub : ∀ x ∈ cascadeIter T T.length [root], x ∈ T.map Task.id :=
      cascadeIter_mem_ids T T.length [root]
        (by intro x hx; rw [List.mem_singleton] at hx; rw [hx]; exact hrootid)
    have hle : (cascadeIter T T.length [root]).length ≤ (T.map Task.id).length :=
      (hnd.subperm hsub).length_le
    rw [List.length_map] at hle
    omega

theorem mem_cascadeStep_of_parent (T : List Task) (X : List Nat) (c : Task)
    (p : Nat) (hc : c ∈ T) (hp : c.parent_task_id = some p) (hpX : p ∈ X) :
    c.id ∈ cascadeStep T X := by
  by_cases hmem : c.id ∈ X
  · exact List.mem_append_left _ hmem
  · refine List.mem_append_right _
      (List.mem_map.mpr ⟨c, List.mem_filter.mpr ⟨hc, ?_⟩, rfl⟩)
    simp [hp, hmem, hpX]

/-- Everything cascadeIds collects lies in the parent_task_id subtree. -/
theorem cascadeIds_sound (T : List Task) (root : Nat) :
    ∀ x ∈ cascadeIds T root, ReachesRoot T root x := by
  have key : ∀ (n : Nat) (s : List Nat), (∀ x ∈ s, ReachesRoot T root x) →
      ∀ x ∈ cascadeIter T n s, ReachesRoot T root x := by
    intro n
    induction n with
    | zero => intro s hs; exact hs
    | succ n ih =>
      intro s hs
      apply ih
      intro x hx
      rcases List.mem_append.mp hx with h | h
      · exact hs x h
      · obtain ⟨u, hu, rfl⟩ := List.mem_map.mp h
        have hft := List.mem_filter.mp hu
        rcases hpt : u.parent_task_id with _ | p
        · have hpred := hft.2
          rw [hpt] at hpred
          simp at hpred
        · have hpmem : p ∈ s := by
            have hpred := hft.2
            rw [hpt] at hpred
            simp only [Bool.and_eq_true] at hpred
            simpa using hpred.2
          exact ReachesRoot.child u p hft.1 hpt (hs p hpmem)
  exact key T.length [root]
    (by intro x hx; rw [List.mem_singleton] at hx; rw [hx]; exact ReachesRoot.root)

/-- Everything in the parent_task_id subtree is collected by cascadeIds. -/
theorem cascadeIds_complete (T : List Task) (root : Nat)
    (hrootid : root ∈ T.map Task.id) (hT : (T.map Task.id).Nodup) :
    ∀ x, ReachesRoot T root x → x ∈ cascadeIds T root := by
  have hfix := cascadeIds_fix T root hrootid hT
  intro x hx
  induction hx with
  | root => exact root_mem_cascadeIds T root
  | child c p hc hp _ ih =>
    have hmem := mem_cascadeStep_of_parent T (cascadeIds T root) c p hc hp ih
    rw [hfix] at hmem
    exact hmem

theorem createAuditEntry_of_absent (s : Store) (e : String) (i : Nat)
    (h : ∀ u ∈ s.tasks, u.id ≠ i) : createAuditEntry s e i = s := by
  have hany : ¬(s.tasks.any (fun t => t.id = i) = true) := by
    rw [List.any_eq_true]
    rintro ⟨x, hx, hxid⟩
    exact h x hx (by simpa using hxid)
  rw [createAuditEntry, if_neg hany]

/-- C10 counterexample: in a store holding task 1, its child task 2
(parent_task_id = 1) and an unrelated task 3, deleting task 1 leaves only
task 3: the child is deleted with its parent, while the claim requires it
to remain in the store. -/
theorem c10_counterexample_child_deleted :
    ((delete_task
        { tasks := [{ id := 1, title := "root" },
                    { id := 2, title := "child", parent_task_id := some 1 },
                    { id := 3, title := "other" }] } 1).2.tasks.map Task.id) = [3] ∧
    ¬((2 : Nat) ∈ ((delete_task
        { tasks := [{ id := 1, title := "root" },
                    { id := 2, title := "child", parent_task_id := some 1 },
                    { id := 3, title := "other" }] } 1).2.tasks.map Task.id)) := by
  refine ⟨by decide, by decide⟩

/-- C10 amended: delete_task removes exactly the parent_task_id subtree
rooted at the deleted task - the task itself and, transitively, every
task whose parent chain reaches it, because Task.children is declared
cascade all, delete-orphan in src/models.py - together with exactly the
Reminder and AuditLogEntry rows of those deleted tasks; every task,
reminder and audit row outside the subtree remains (primary keys are
unique).  The post-state membership of each table is characterized
exactly by subtree reachability. -/
theorem c10_delete_task_cascade (s : Store) (task_id : Nat) (t : Task)
    (hfind : findTask s task_id = some t)
    (hnodup : (s.tasks.map Task.id).Nodup) :
    (delete_task s task_id).1 = .ok task_id ∧
    (∀ u, u ∈ (delete_task s task_id).2.tasks ↔
      u ∈ s.tasks ∧ ¬ReachesRoot s.tasks task_id u.id) ∧
    (∀ r, r ∈ (delete_task s task_id).2.reminders ↔
      r ∈ s.reminders ∧ ¬ReachesRoot s.tasks task_id r.task_id) ∧
    (∀ a, a ∈ (delete_task s task_id).2.audit ↔
      a ∈ s.audit ∧ ∀ tid, a.task_id = some tid →
        ¬ReachesRoot s.tasks task_id tid) := by
  have ht_mem : t ∈ s.tasks := List.mem_of_find?_eq_some hfind
  have ht_id : t.id = task_id := by
    have hpr := List.find?_some hfind
    simpa using hpr
  have hrootid : task_id ∈ s.tasks.map Task.id :=
    List.mem_map.mpr ⟨t, ht_mem, ht_id⟩
  have hiff : ∀ x, x ∈ cascadeIds s.tasks task_id ↔
      ReachesRoot s.tasks task_id x := fun x =>
    ⟨cascadeIds_sound s.tasks task_id x,
     cascadeIds_complete s.tasks task_id hrootid hnodup x⟩
  have hb : ∀ x, (!(cascadeIds s.tasks task_id).contains x) = true ↔
      ¬ReachesRoot s.tasks task_id x := by
    intro x
    rw [← hiff x]
    simp
  have hroot : task_id ∈ cascadeIds s.tasks task_id := root_mem_cascadeIds _ _
  have habsent : ∀ u ∈ s.tasks.filter
      (fun u => !(cascadeIds s.tasks task_id).contains u.id), u.id ≠ task_id := by
    intro u hu hid
    have hpred := (List.mem_filter.mp hu).2
    rw [hid] at hpred
    simp [hroot] at hpred
  have hres : delete_task s task_id =
      (.ok task_id,
       { s with
         tasks := s.tasks.filter
           (fun u => !(cascadeIds s.tasks task_id).contains u.id),
         reminders := s.reminders.filter
           (fun r => !(cascadeIds s.tasks task_id).contains r.task_id),
         audit := s.audit.filter (fun a =>
           match a.task_id with
           | some tid => !(cascadeIds s.tasks task_id).contains tid
           | Option.none => true) }) := by
    simp only [delete_task, hfind]
    rw [createAuditEntry_of_absent _ _ _ habsent]
  refine ⟨by rw [hres], ?_, ?_, ?_⟩
  · intro u
    rw [hres]
    show u ∈ s.tasks.filter
      (fun u => !(cascadeIds s.tasks task_id).contains u.id) ↔ _
    rw [List.mem_filter]
    exact and_congr_right fun _ => hb u.id
  · intro r
    rw [hres]
    show r ∈ s.reminders.filter
      (fun r => !(cascadeIds s.tasks task_id).contains r.task_id) ↔ _
    rw [List.mem_filter]
    exact and_congr_right fun _ => hb r.task_id
  · intro a
    rw [hres]
    show a ∈ s.audit.filter (fun a =>
      match a.task_id with
      | some tid => !(cascadeIds s.tasks task_id).contains tid
      | Option.none => true) ↔ _
    rw [List.mem_filter]
    refine and_congr_right fun _ => ?_
    rcases hat : a.task_id with _ | tid
    · simp [hat]
    · constructor
      · intro hpred tid2 heq
        cases heq
        exact (hb tid).mp hpred
      · intro hall
        exact (hb tid).mpr (hall tid rfl)

/-- Witness for C10 amended on a store with a depth-two subtree (root,
child, grandchild), an unrelated task, and reminders and audit rows on
both subtree and non-subtree tasks. -/
theorem c10_delete_task_cascade_witness :
    (delete_task c10WitnessStore 1).1 = .ok 1 ∧
    (∀ u, u ∈ (delete_task c10WitnessStore 1).2.tasks ↔
      u ∈ c10WitnessStore.tasks ∧ ¬ReachesRoot c10WitnessStore.tasks 1 u.id) ∧
    (∀ r, r ∈ (delete_task c10WitnessStore 1).2.reminders ↔
      r ∈ c10WitnessStore.reminders ∧
        ¬ReachesRoot c10WitnessStore.tasks 1 r.task_id) ∧
    (∀ a, a ∈ (delete_task c10WitnessStore 1).2.audit ↔
      a ∈ c10WitnessStore.audit ∧ ∀ tid, a.task_id = some tid →
        ¬ReachesRoot c10WitnessStore.tasks 1 tid) :=
  c10_delete_task_cascade c10WitnessStore 1 { id := 1, title := "root" }
    (by decide) (by decide)

end TodoSpec
